import Mathlib

/-!
Rule engine page script (`static/script.js`)

A shallow embedding of the four user intents of the page script
(`loadRules`, `createRule`, `testRule`, `deleteRule`) together with
`showNotification`, as functions on an explicit world state.

What the script touches is made explicit:

* the children of `#rulesList` and `#ruleSelect`, the markup of
  `#testResult`, the inputs of the two forms;
* the notifications appended to the document body and the console output;
* the sequence of requests handed to `fetch`.

The browser is an environment: the network answers each request as a function
of the requests sent so far, `JSON.parse`, the wording of engine errors and the
answer given to `confirm` are parameters.
-/

namespace RuleEngine

/-! ## JavaScript values -/

/-- A JavaScript number, represented by the two observations the script can make
of it: its string conversion and whether it is zero (the only falsy numbers a
JSON text can denote). -/
structure JsNumber where
  text : String
  isZero : Bool
deriving DecidableEq, Repr

/-- A decoded JSON value, as produced by `JSON.parse` or `response.json()`.
The property list of an object holds each key once, in insertion order. -/
inductive Json where
  | null
  | bool (b : Bool)
  | num (n : JsNumber)
  | str (s : String)
  | arr (items : List Json)
  | obj (props : List (String × Json))

/-- The values the script handles: decoded JSON, or `undefined` (the result of
reading a property that is not there). -/
inductive JsValue where
  | undefined
  | json (j : Json)

/-- The part of the browser the script relies on and that is not fixed by the
script itself. An error is represented by its `message`. -/
structure Runtime where
  /-- `JSON.parse`: the decoded value, or the message of the `SyntaxError`. -/
  jsonParse : String → Except String Json
  /-- Message of the `TypeError` raised when a property is read from `null`. -/
  nullReadMessage : String → String
  /-- Message of the `TypeError` raised when a non-function is called. -/
  notFunctionMessage : String → String
  /-- Message of the `TypeError` raised when an object has no primitive value. -/
  toPrimitiveMessage : String
  /-- The answer the user gives to `confirm(message)`. -/
  confirm : String → Bool

/-- Property read `v.p` on a decoded JSON value, for a property name `p` that no
built-in prototype defines (the script reads `name`, `description`,
`rule_text`, `detail` and `result`). Reading from `null` throws. -/
def getProp (rt : Runtime) (v : Json) (p : String) : Except String JsValue :=
  match v with
  | .null => .error (rt.nullReadMessage p)
  | .obj props =>
    match props.lookup p with
    | some x => .ok (.json x)
    | none => .ok .undefined
  | _ => .ok .undefined

/-- The separator-joined text of `Array.prototype.join` with the default comma. -/
def joinPieces : List String → String
  | [] => ""
  | [a] => a
  | a :: b :: rest => a ++ "," ++ joinPieces (b :: rest)

mutual
/-- The abstract operation `ToString` on a decoded JSON value. An array is joined
with commas; a plain object is `[object Object]`, unless it has an own property
`toString`, which is never callable in decoded JSON: then no primitive value can
be found and a `TypeError` is thrown. -/
def jsonToString (rt : Runtime) : Json → Except String String
  | .null => .ok "null"
  | .bool b => .ok (if b then "true" else "false")
  | .num n => .ok n.text
  | .str s => .ok s
  | .arr items => (joinItems rt items).map joinPieces
  | .obj props =>
    if (props.lookup "toString").isSome then .error rt.toPrimitiveMessage
    else .ok "[object Object]"
/-- The pieces `Array.prototype.join` concatenates: the empty string for `null`,
the string conversion for every other element. -/
def joinItems (rt : Runtime) : List Json → Except String (List String)
  | [] => .ok []
  | x :: rest =>
    match (match x with
      | .null => Except.ok ""
      | _ => jsonToString rt x) with
    | .error e => .error e
    | .ok a =>
      match joinItems rt rest with
      | .error e => .error e
      | .ok as => .ok (a :: as)
end

/-- `ToString`, as applied by a template literal, string concatenation or the
assignment to a `DOMString` attribute. -/
def toStringJs (rt : Runtime) : JsValue → Except String String
  | .undefined => .ok "undefined"
  | .json j => jsonToString rt j

/-- `ToBoolean`, as applied by the conditional operator. -/
def toBoolean : JsValue → Bool
  | .undefined => false
  | .json .null => false
  | .json (.bool b) => b
  | .json (.num n) => !n.isZero
  | .json (.str s) => s != ""
  | .json (.arr _) => true
  | .json (.obj _) => true

/-- Conversion applied by the setter of the nullable attribute `textContent`:
`null` and `undefined` give the empty string. -/
def toTextContent (rt : Runtime) : JsValue → Except String String
  | .undefined => .ok ""
  | .json .null => .ok ""
  | .json j => jsonToString rt j

/-! ## The page and the network -/

/-- A `div.rule-card` built by `loadRules`: the four strings interpolated into its
markup, in the order of the template. The card is identified by the markup
assigned to it (`RuleCard.innerHTML`); how the browser parses that markup is
not modelled, so a field is the string that was interpolated, not what the
parsed card displays. -/
structure RuleCard where
  title : String
  description : String
  ruleText : String
  deleteArg : String
deriving DecidableEq, Repr

/-- The `className` given to every card of the rules list. -/
def RuleCard.className (_ : RuleCard) : String := "rule-card"

/-- The markup assigned to `ruleDiv.innerHTML`. -/
def RuleCard.innerHTML (c : RuleCard) : String :=
  "\n                <div class=\"rule-header\">\n                    <div>\n                        <h3 class=\"rule-title\">"
    ++ c.title
    ++ "</h3>\n                        <p class=\"rule-description\">"
    ++ c.description
    ++ "</p>\n                        <pre class=\"rule-text\">"
    ++ c.ruleText
    ++ "</pre>\n                    </div>\n                    <button onclick=\"deleteRule(\x27"
    ++ c.deleteArg
    ++ "\x27)\" class=\"btn btn-danger\">\n                        Delete\n                    </button>\n                </div>\n            "

/-- An `option` element appended to `#ruleSelect`. -/
structure OptionEl where
  value : String
  textContent : String
deriving DecidableEq, Repr

/-- A notification element appended to the document body by `showNotification`;
its class is `notification` followed by `type`. -/
structure Notification where
  message : String
  type : String
deriving DecidableEq, Repr

/-- The `className` of a notification element. -/
def Notification.className (n : Notification) : String := "notification " ++ n.type

/-- A text input of the create form: its current and its default value. -/
structure Input where
  value : String
  defaultValue : String
deriving DecidableEq, Repr

/-- A request handed to `fetch`. The body is the value given to
`JSON.stringify`. -/
structure Request where
  method : String
  url : String
  headers : List (String × String)
  body : Option Json

/-- What awaiting `fetch` and then `response.json()` gives: the fetch promise
rejects, or a response arrives with its `ok` flag and the outcome of decoding
its body (the decoded value, or the message of the decoding error). -/
inductive FetchResult where
  | rejected (message : String)
  | response (ok : Bool) (json : Except String Json)

/-- The network: the answer to a request, given every request sent so far (the
last element is the request being answered). -/
abbrev Net := List Request → FetchResult

/-- Everything the script reads or writes. -/
structure World where
  /-- Children of `#rulesList`. -/
  rulesList : List RuleCard
  /-- Children of `#ruleSelect`. -/
  ruleSelect : List OptionEl
  /-- Index of the selected option of `#ruleSelect`, if any. -/
  selectedIndex : Option Nat
  /-- Markup of `#testResult`. -/
  testResult : String
  /-- The inputs `#ruleName`, `#ruleDescription`, `#ruleText` of the create form. -/
  ruleName : Input
  ruleDescription : Input
  ruleText : Input
  /-- Value of `#userData`. -/
  userData : String
  /-- Notifications shown so far, oldest first. -/
  notifications : List Notification
  /-- Lines written by `console.error`: the label and the error message. -/
  console : List (String × String)
  /-- Requests handed to `fetch` so far, oldest first. -/
  requests : List Request

/-- The two rule views: the rules list and the rule select with its selection. -/
structure Views where
  rulesList : List RuleCard
  ruleSelect : List OptionEl
  selectedIndex : Option Nat
deriving DecidableEq, Repr

/-- The two rule views of a world. -/
def World.views (w : World) : Views := ⟨w.rulesList, w.ruleSelect, w.selectedIndex⟩

/-- The `value` of `#ruleSelect`: the value of the selected option, or the empty
string when no option is selected. -/
def World.ruleSelectValue (w : World) : String :=
  match w.selectedIndex with
  | none => ""
  | some i =>
    match w.ruleSelect.get? i with
    | some o => o.value
    | none => ""

/-- `fetch`: the request is recorded and the network answers it. -/
def fetch (net : Net) (req : Request) (w : World) : FetchResult × World :=
  (net (w.requests ++ [req]), { w with requests := w.requests ++ [req] })

/-- `console.error(label, error)`. -/
def consoleError (label message : String) (w : World) : World :=
  { w with console := w.console ++ [(label, message)] }

/-- `showNotification(message, type)`: a notification element is appended to the
body. Its removal three seconds later is not part of the model: `notifications`
records what was shown. -/
def showNotification (message type : String) (w : World) : World :=
  { w with notifications := w.notifications ++ [⟨message, type⟩] }

/-! ## loadRules -/

/-- The request of `fetch('/api/rules/')`. -/
def listRequest : Request := ⟨"GET", "/api/rules/", [], none⟩

/-- Lines 17 to 30: the card of one element of the response. The template reads
`rule.name`, `rule.description`, `rule.rule_text` and `rule.name` again, each
converted to a string; the first failure is thrown. -/
def cardOf (rt : Runtime) (rule : Json) : Except String RuleCard :=
  match getProp rt rule "name" with
  | .error e => .error e
  | .ok n =>
  match toStringJs rt n with
  | .error e => .error e
  | .ok title =>
  match getProp rt rule "description" with
  | .error e => .error e
  | .ok d =>
  match toStringJs rt d with
  | .error e => .error e
  | .ok description =>
  match getProp rt rule "rule_text" with
  | .error e => .error e
  | .ok t =>
  match toStringJs rt t with
  | .error e => .error e
  | .ok ruleText =>
  match getProp rt rule "name" with
  | .error e => .error e
  | .ok n2 =>
  match toStringJs rt n2 with
  | .error e => .error e
  | .ok deleteArg => .ok ⟨title, description, ruleText, deleteArg⟩

/-- Lines 34 to 36: the option of one element of the response. -/
def optionOf (rt : Runtime) (rule : Json) : Except String OptionEl :=
  match getProp rt rule "name" with
  | .error e => .error e
  | .ok n =>
  match toStringJs rt n with
  | .error e => .error e
  | .ok value =>
  match getProp rt rule "name" with
  | .error e => .error e
  | .ok n2 =>
  match toTextContent rt n2 with
  | .error e => .error e
  | .ok text => .ok ⟨value, text⟩

/-- `ruleSelect.appendChild(option)`. The select is taken to be a drop-down list
(no `multiple` attribute): when none of its options is selected, it selects its
first option. -/
def appendOption (o : OptionEl) (w : World) : World :=
  { w with
    ruleSelect := w.ruleSelect ++ [o]
    selectedIndex := match w.selectedIndex with
      | some i => some i
      | none => some 0 }

/-- The callback of `rules.forEach` (lines 15 to 38) on one element: the thrown
error, if any, and the world at that point. The card is appended before the
option is built. -/
def renderRule (rt : Runtime) (rule : Json) (w : World) : Option String × World :=
  match cardOf rt rule with
  | .error e => (some e, w)
  | .ok card =>
    let w1 := { w with rulesList := w.rulesList ++ [card] }
    match optionOf rt rule with
    | .error e => (some e, w1)
    | .ok o => (none, appendOption o w1)

/-- `Array.prototype.forEach` with the callback above: elements are rendered in
order until one throws. -/
def forEachRule (rt : Runtime) : List Json → World → Option String × World
  | [], w => (none, w)
  | rule :: rest, w =>
    match renderRule rt rule w with
    | (some e, w1) => (some e, w1)
    | (none, w1) => forEachRule rt rest w1

/-- `rules.forEach(...)` on an arbitrary decoded value: only an array has a
callable `forEach`. -/
def callForEach (rt : Runtime) (rules : Json) (w : World) : Option String × World :=
  match rules with
  | .arr items => forEachRule rt items w
  | .null => (some (rt.nullReadMessage "forEach"), w)
  | _ => (some (rt.notFunctionMessage "rules.forEach"), w)

/-- `rulesList.innerHTML = ''` and `ruleSelect.innerHTML = ''` (lines 8 to 13). -/
def clearViews (w : World) : World :=
  { w with rulesList := [], ruleSelect := [], selectedIndex := none }

/-- The `try` block of `loadRules` from the point where the fetch settles: the
thrown error, if any, and the world at that point. -/
def loadRulesTry (rt : Runtime) (res : FetchResult) (w : World) : Option String × World :=
  match res with
  | .rejected m => (some m, w)
  | .response _ body =>
    match body with
    | .error m => (some m, w)
    | .ok rules => callForEach rt rules (clearViews w)

/-- The `catch` block of `loadRules`. -/
def loadRulesCatch (r : Option String × World) : World :=
  match r with
  | (none, w) => w
  | (some e, w) =>
    showNotification "Error loading rules" "error" (consoleError "Error loading rules:" e w)

/-- The part of `loadRules` that runs once its fetch has settled. -/
def loadRulesResume (rt : Runtime) (res : FetchResult) (w : World) : World :=
  loadRulesCatch (loadRulesTry rt res w)

/-- `loadRules()`. -/
def loadRules (rt : Runtime) (net : Net) (w : World) : World :=
  match fetch net listRequest w with
  | (res, w1) => loadRulesResume rt res w1

/-! ## createRule -/

/-- The request of the `fetch` in `createRule`: the body is the object built from
the three inputs of the create form. -/
def createRequest (w : World) : Request :=
  ⟨"POST", "/api/rules/", [("Content-Type", "application/json")],
    some (.obj [("name", .str w.ruleName.value),
                ("description", .str w.ruleDescription.value),
                ("rule_text", .str w.ruleText.value)])⟩

/-- `event.target.reset()` on the create form: its inputs return to their default
values. The rule select and the user data belong to the test form. -/
def resetCreateForm (w : World) : World :=
  { w with
    ruleName := { w.ruleName with value := w.ruleName.defaultValue }
    ruleDescription := { w.ruleDescription with value := w.ruleDescription.defaultValue }
    ruleText := { w.ruleText with value := w.ruleText.defaultValue } }

/-- The `try` block of `createRule`: the thrown error, if any, and the world at
that point. On a successful response `loadRules()` is called without `await`: it
runs up to its own fetch, the form is reset, and the rest of `loadRules` runs
when that fetch settles. -/
def createRuleTry (rt : Runtime) (net : Net) (w : World) : Option String × World :=
  match fetch net (createRequest w) w with
  | (.rejected m, w1) => (some m, w1)
  | (.response true _, w1) =>
    let w2 := showNotification "Rule created successfully" "success" w1
    match fetch net listRequest w2 with
    | (res, w3) => (none, loadRulesResume rt res (resetCreateForm w3))
  | (.response false body, w1) =>
    match body with
    | .error m => (some m, w1)
    | .ok error =>
      match getProp rt error "detail" with
      | .error m => (some m, w1)
      | .ok d =>
        match toStringJs rt d with
        | .error m => (some m, w1)
        | .ok detail => (none, showNotification ("Error: " ++ detail) "error" w1)

/-- `createRule(event)`. -/
def createRule (rt : Runtime) (net : Net) (w : World) : World :=
  match createRuleTry rt net w with
  | (none, w1) => w1
  | (some e, w1) =>
    showNotification "Error creating rule" "error" (consoleError "Error creating rule:" e w1)

/-! ## testRule -/

/-- The request of the `fetch` in `testRule`. -/
def testRequest (ruleName : String) (userData : Json) : Request :=
  ⟨"POST", "/api/rules/test/", [("Content-Type", "application/json")],
    some (.obj [("rule_name", .str ruleName), ("user_data", userData)])⟩

/-- The markup assigned to `#testResult`, with its two interpolated strings. -/
def testResultHtml (cls label : String) : String :=
  "\n            <div class=\"rule-card " ++ cls
    ++ "\">\n                Rule evaluation result: <strong>" ++ label
    ++ "</strong>\n            </div>\n        "

/-- The `try` block of `testRule`: the thrown error, if any, and the world at
that point. The template reads `result.result` twice. -/
def testRuleTry (rt : Runtime) (net : Net) (w : World) : Option String × World :=
  match rt.jsonParse w.userData with
  | .error m => (some m, w)
  | .ok userData =>
    match fetch net (testRequest w.ruleSelectValue userData) w with
    | (.rejected m, w1) => (some m, w1)
    | (.response _ body, w1) =>
      match body with
      | .error m => (some m, w1)
      | .ok result =>
        match getProp rt result "result" with
        | .error m => (some m, w1)
        | .ok r1 =>
          match getProp rt result "result" with
          | .error m => (some m, w1)
          | .ok r2 =>
            let cls := if toBoolean r1 then "success-result" else "failure-result"
            let label := if toBoolean r2 then "MATCH" else "NO MATCH"
            (none, { w1 with testResult := testResultHtml cls label })

/-- `testRule(event)`. -/
def testRule (rt : Runtime) (net : Net) (w : World) : World :=
  match testRuleTry rt net w with
  | (none, w1) => w1
  | (some e, w1) =>
    showNotification ("Error testing rule: " ++ e) "error" (consoleError "Error testing rule:" e w1)

/-! ## deleteRule -/

/-- The question put to the user by `deleteRule`. -/
def confirmMessage (ruleName : String) : String :=
  "Are you sure you want to delete rule \"" ++ ruleName ++ "\"?"

/-- The request of the `fetch` in `deleteRule`. -/
def deleteRequest (ruleName : String) : Request :=
  ⟨"DELETE", "/api/rules/" ++ ruleName, [], none⟩

/-- `deleteRule(ruleName)`. -/
def deleteRule (rt : Runtime) (net : Net) (ruleName : String) (w : World) : World :=
  if rt.confirm (confirmMessage ruleName) then
    match fetch net (deleteRequest ruleName) w with
    | (.rejected m, w1) =>
      showNotification "Error deleting rule" "error" (consoleError "Error deleting rule:" m w1)
    | (.response true _, w1) =>
      loadRules rt net (showNotification "Rule deleted successfully" "success" w1)
    | (.response false _, w1) => showNotification "Error deleting rule" "error" w1
  else w

/-! ## An example runtime -/

/-- JSON white space. -/
def isJsonSpace (c : Char) : Bool :=
  c == ' ' || c == Char.ofNat 10 || c == Char.ofNat 13 || c == Char.ofNat 9

/-- Drops leading white space. -/
def skipSpace : List Char → List Char
  | [] => []
  | c :: cs => if isJsonSpace c then skipSpace cs else c :: cs

/-- Reads the rest of a string literal after its opening quote; `acc` holds the
characters read so far, last first. Escape sequences and control characters are
outside the subset read here. -/
def readStringBody : List Char → List Char → Option (String × List Char)
  | _, [] => none
  | acc, c :: cs =>
    if c == Char.ofNat 34 then some (String.mk acc.reverse, cs)
    else if c == Char.ofNat 92 || c.toNat < 32 then none
    else readStringBody (c :: acc) cs

/-- Splits off the leading decimal digits. -/
def spanDigits : List Char → List Char × List Char
  | [] => ([], [])
  | c :: cs =>
    if c.isDigit then
      match spanDigits cs with
      | (ds, rest) => (c :: ds, rest)
    else ([], c :: cs)

/-- Reads an integer literal of at most fifteen digits, whose string conversion
is its decimal notation. -/
def readInteger (negative : Bool) (cs : List Char) : Option (Json × List Char) :=
  match spanDigits cs with
  | (ds, rest) =>
    if ds.isEmpty || ds.length > 15 || (ds.length > 1 && ds.head? == some '0') then none
    else if (rest.head? == some '.' || rest.head? == some 'e' || rest.head? == some 'E') then none
    else
      let zero := ds == ['0']
      let text := if negative && !zero then "-" ++ String.mk ds else String.mk ds
      some (.num ⟨text, zero⟩, rest)

/-- `obj[key] = value` on a property list: an existing key keeps its place. -/
def setProp (key : String) (value : Json) : List (String × Json) → List (String × Json)
  | [] => [(key, value)]
  | (k, v) :: rest =>
    if k == key then (k, value) :: rest else (k, v) :: setProp key value rest

mutual
/-- Reads one JSON value; `fuel` bounds the number of nested reads. -/
def readValue : Nat → List Char → Option (Json × List Char)
  | 0, _ => none
  | fuel + 1, cs =>
    match skipSpace cs with
    | [] => none
    | c :: rest =>
      if c == 'n' then
        (if rest.take 3 == ['u', 'l', 'l'] then some (.null, rest.drop 3) else none)
      else if c == 't' then
        (if rest.take 3 == ['r', 'u', 'e'] then some (.bool true, rest.drop 3) else none)
      else if c == 'f' then
        (if rest.take 4 == ['a', 'l', 's', 'e'] then some (.bool false, rest.drop 4) else none)
      else if c == Char.ofNat 34 then
        match readStringBody [] rest with
        | some (s, rest1) => some (.str s, rest1)
        | none => none
      else if c == '[' then
        match skipSpace rest with
        | [] => none
        | d :: rest1 =>
          if d == ']' then some (.arr [], rest1)
          else
            match readItems fuel (d :: rest1) with
            | some (items, rest2) => some (.arr items, rest2)
            | none => none
      else if c == Char.ofNat 123 then
        match skipSpace rest with
        | [] => none
        | d :: rest1 =>
          if d == Char.ofNat 125 then some (.obj [], rest1)
          else
            match readMembers fuel [] (d :: rest1) with
            | some (props, rest2) => some (.obj props, rest2)
            | none => none
      else if c == '-' then readInteger true rest
      else readInteger false (c :: rest)
/-- Reads the elements of a non-empty array up to and including its closing
bracket. -/
def readItems : Nat → List Char → Option (List Json × List Char)
  | 0, _ => none
  | fuel + 1, cs =>
    match readValue fuel cs with
    | none => none
    | some (v, rest) =>
      match skipSpace rest with
      | [] => none
      | c :: rest1 =>
        if c == ']' then some ([v], rest1)
        else if c == ',' then
          match readItems fuel rest1 with
          | some (vs, rest2) => some (v :: vs, rest2)
          | none => none
        else none
/-- Reads the members of a non-empty object up to and including its closing
brace; `acc` holds the properties read so far. -/
def readMembers : Nat → List (String × Json) → List Char → Option (List (String × Json) × List Char)
  | 0, _, _ => none
  | fuel + 1, acc, cs =>
    match skipSpace cs with
    | [] => none
    | q :: rest =>
      if q == Char.ofNat 34 then
        match readStringBody [] rest with
        | none => none
        | some (key, rest1) =>
          match skipSpace rest1 with
          | [] => none
          | colon :: rest2 =>
            if colon == ':' then
              match readValue fuel rest2 with
              | none => none
              | some (v, rest3) =>
                match skipSpace rest3 with
                | [] => none
                | c :: rest4 =>
                  if c == Char.ofNat 125 then some (setProp key v acc, rest4)
                  else if c == ',' then readMembers fuel (setProp key v acc) rest4
                  else none
            else none
      else none
end

/-- A reader for a subset of JSON (no escape sequences, integers only): the
whole text must be one value surrounded by white space. -/
def readJson (text : String) : Except String Json :=
  match readValue (text.length + 1) text.data with
  | some (v, rest) =>
    if (skipSpace rest).isEmpty then .ok v else .error "Unexpected non-whitespace character after JSON"
  | none => .error "Unexpected token in JSON"

/-- A runtime used in examples: the user accepts every confirmation. -/
def exampleRuntime : Runtime where
  jsonParse := readJson
  nullReadMessage p := "Cannot read properties of null (reading \x27" ++ p ++ "\x27)"
  notFunctionMessage f := f ++ " is not a function"
  toPrimitiveMessage := "Cannot convert object to primitive value"
  confirm _ := true

/-! ## Notions used by the statements -/

/-- A rule record of the data model: its three text fields. -/
structure Rule where
  name : String
  description : String
  rule_text : String
deriving DecidableEq, Repr

/-- The decoded value `j` is a record of rule `r`: an object whose properties
`name`, `description` and `rule_text` are the strings of `r` (further properties
are allowed). -/
def IsRuleRecord (j : Json) (r : Rule) : Prop :=
  ∃ props, j = .obj props ∧ props.lookup "name" = some (.str r.name)
    ∧ props.lookup "description" = some (.str r.description)
    ∧ props.lookup "rule_text" = some (.str r.rule_text)

/-- The record of a rule with exactly its three fields. -/
def Rule.toJson (r : Rule) : Json :=
  .obj [("name", .str r.name), ("description", .str r.description),
        ("rule_text", .str r.rule_text)]

/-- The two views hold entries for the same sequence of rule names: the names
shown by the cards, the names their delete actions carry and the values of the
options agree position by position. -/
def Mirrored (v : Views) : Prop :=
  v.rulesList.map RuleCard.title = v.ruleSelect.map OptionEl.value
    ∧ v.rulesList.map RuleCard.deleteArg = v.ruleSelect.map OptionEl.value

/-- The world `w` with its two rule views replaced by `v`. -/
def World.withViews (w : World) (v : Views) : World :=
  { w with rulesList := v.rulesList, ruleSelect := v.ruleSelect, selectedIndex := v.selectedIndex }

/-- The response is a success as `createRule` and `deleteRule` test it: a
response arrived and its `ok` flag is set. -/
def FetchResult.isOk : FetchResult → Bool
  | .response true _ => true
  | _ => false

/-- The decoded body of a fetch result, when a response arrived and its body
could be decoded. -/
def FetchResult.decoded : FetchResult → Option Json
  | .response _ (.ok j) => some j
  | _ => none

/-- The number of notifications of kind `error` among the given ones. -/
def errorCount (ns : List Notification) : Nat :=
  (ns.filter (fun n => n.type == "error")).length

/-- A world with empty views and forms, used in examples. -/
def emptyWorld : World where
  rulesList := []
  ruleSelect := []
  selectedIndex := none
  testResult := ""
  ruleName := ⟨"", ""⟩
  ruleDescription := ⟨"", ""⟩
  ruleText := ⟨"", ""⟩
  userData := ""
  notifications := []
  console := []
  requests := []

/-- Example rule `R1`. -/
def ruleR1 : Rule := ⟨"R1", "d", "age>18"⟩

/-- Example rule `R2`. -/
def ruleR2 : Rule := ⟨"R2", "d2", "age<10"⟩

/-- A page showing the rule `R1` in both views, with `R2` typed into the create
form and `{"age": 20}` as user data. -/
def pageR1 : World :=
  { emptyWorld with
    rulesList := [⟨"R1", "d", "age>18", "R1"⟩]
    ruleSelect := [⟨"R1", "R1"⟩]
    selectedIndex := some 0
    ruleName := ⟨"R2", ""⟩
    ruleDescription := ⟨"d2", ""⟩
    ruleText := ⟨"age<10", ""⟩
    userData := "\x7b\"age\": 20\x7d" }

/-- The page above with the raw text `{bad}` as user data. -/
def pageBadInput : World := { pageR1 with userData := "{bad}" }

/-- A network on which every fetch is rejected. -/
def netOffline : Net := fun _ => .rejected "Failed to fetch"

/-- A network answering every request with a non-success status and an error
payload. -/
def netError : Net := fun _ => .response false (.ok (.obj [("detail", .str "Rule not found")]))

/-- A network answering every request with a success status and the list
`[R1, R2]`. -/
def netR1R2 : Net := fun _ => .response true (.ok (.arr [ruleR1.toJson, ruleR2.toJson]))

/-- A network answering every request with a success status and the list
`[R1, null]`, whose second element is not a record. -/
def netR1Null : Net := fun _ => .response true (.ok (.arr [ruleR1.toJson, .null]))

/-- A rule whose name holds an apostrophe. -/
def ruleONeil : Rule := ⟨"O\x27Neil", "d", "age>18"⟩

/-- A network answering every request with a success status and the list holding
the record of the rule named `O'Neil` alone. -/
def netONeil : Net := fun _ => .response true (.ok (.arr [ruleONeil.toJson]))

/-- A network answering every request with a success status and
`{"result": false}`. -/
def netNoMatch : Net := fun _ => .response true (.ok (.obj [("result", .bool false)]))

/-- A network answering every request with a success status and
`{"result": true}`. -/
def netMatch : Net := fun _ => .response true (.ok (.obj [("result", .bool true)]))

/-! ## Elementary facts about the effects -/

@[simp] theorem views_showNotification (m t : String) (w : World) :
    (showNotification m t w).views = w.views := rfl

@[simp] theorem views_consoleError (l m : String) (w : World) :
    (consoleError l m w).views = w.views := rfl

@[simp] theorem views_resetCreateForm (w : World) :
    (resetCreateForm w).views = w.views := rfl

@[simp] theorem requests_showNotification (m t : String) (w : World) :
    (showNotification m t w).requests = w.requests := rfl

@[simp] theorem requests_consoleError (l m : String) (w : World) :
    (consoleError l m w).requests = w.requests := rfl

@[simp] theorem requests_resetCreateForm (w : World) :
    (resetCreateForm w).requests = w.requests := rfl

@[simp] theorem fetch_fst (net : Net) (req : Request) (w : World) :
    (fetch net req w).1 = net (w.requests ++ [req]) := rfl

@[simp] theorem fetch_snd_views (net : Net) (req : Request) (w : World) :
    (fetch net req w).2.views = w.views := rfl

@[simp] theorem fetch_snd_requests (net : Net) (req : Request) (w : World) :
    (fetch net req w).2.requests = w.requests ++ [req] := rfl

@[simp] theorem fetch_snd_notifications (net : Net) (req : Request) (w : World) :
    (fetch net req w).2.notifications = w.notifications := rfl

/-! ## testRule: invalid input -/

/-- C1. When the text of `#userData` is not valid JSON, `testRule` hands no request
to `fetch`, leaves the test-result markup and the rule views as they were, and
shows exactly one notification, of kind `error`, carrying the parse error. -/
theorem testRule_invalid_input (rt : Runtime) (net : Net) (w : World) (msg : String)
    (h : rt.jsonParse w.userData = .error msg) :
    (testRule rt net w).requests = w.requests
      ∧ (testRule rt net w).testResult = w.testResult
      ∧ (testRule rt net w).views = w.views
      ∧ (testRule rt net w).notifications
          = w.notifications ++ [⟨"Error testing rule: " ++ msg, "error"⟩] := by
  simp [testRule, testRuleTry, h, showNotification, consoleError, World.views]

/-- Witness of C1 on the raw text `{bad}`. -/
theorem testRule_invalid_input_witness :
    (testRule exampleRuntime netMatch pageBadInput).requests = pageBadInput.requests
      ∧ (testRule exampleRuntime netMatch pageBadInput).testResult = pageBadInput.testResult
      ∧ (testRule exampleRuntime netMatch pageBadInput).views = pageBadInput.views
      ∧ (testRule exampleRuntime netMatch pageBadInput).notifications
          = pageBadInput.notifications
            ++ [⟨"Error testing rule: " ++ "Unexpected token in JSON", "error"⟩] :=
  testRule_invalid_input exampleRuntime netMatch pageBadInput "Unexpected token in JSON" rfl

/-! ## createRule -/

/-- A `createRule` whose POST is not answered with a success leaves the views alone
and sends nothing but the POST. -/
theorem createRule_not_ok (rt : Runtime) (net : Net) (w : World)
    (h : (net (w.requests ++ [createRequest w])).isOk = false) :
    (createRule rt net w).views = w.views
      ∧ (createRule rt net w).requests = w.requests ++ [createRequest w] := by
  unfold createRule createRuleTry
  cases hres : net (w.requests ++ [createRequest w]) with
  | rejected m => simp [fetch, hres, showNotification, consoleError, World.views]
  | response ok body =>
    cases ok with
    | true => simp [hres, FetchResult.isOk] at h
    | false =>
      cases body with
      | error m => simp [fetch, hres, showNotification, consoleError, World.views]
      | ok err =>
        cases h1 : getProp rt err "detail" with
        | error m => simp [fetch, hres, h1, showNotification, consoleError, World.views]
        | ok d =>
          cases h2 : toStringJs rt d with
          | error m => simp [fetch, hres, h1, h2, showNotification, consoleError, World.views]
          | ok detail => simp [fetch, hres, h1, h2, showNotification, World.views]

/-- C2. When the POST of `createRule` does not come back as a success (the fetch is
rejected, or the response is not `ok`, whether or not its body can be decoded),
no refresh is triggered (the POST is the only request sent) and both rule views
are exactly as before the call. -/
theorem createRule_failure_isolation (rt : Runtime) (net : Net) (w : World)
    (h : (net (w.requests ++ [createRequest w])).isOk = false) :
    (createRule rt net w).views = w.views
      ∧ (createRule rt net w).requests = w.requests ++ [createRequest w] :=
  createRule_not_ok rt net w h

/-- Witness of C2: the server answers the POST with a non-success status and an
error payload. -/
theorem createRule_failure_isolation_witness :
    (createRule exampleRuntime netError pageR1).views = pageR1.views
      ∧ (createRule exampleRuntime netError pageR1).requests
        = pageR1.requests ++ [createRequest pageR1] :=
  createRule_failure_isolation exampleRuntime netError pageR1 rfl

/-! ## Frame of the rendering loop: only the rule views are written -/

@[simp] theorem withViews_views (w : World) : w.withViews w.views = w := rfl

@[simp] theorem views_withViews (w : World) (v : Views) : (w.withViews v).views = v := rfl

@[simp] theorem withViews_withViews (w : World) (v v2 : Views) :
    (w.withViews v).withViews v2 = w.withViews v2 := rfl

theorem renderRule_frame (rt : Runtime) (rule : Json) (w : World) :
    (renderRule rt rule w).2 = w.withViews (renderRule rt rule w).2.views := by
  unfold renderRule
  cases cardOf rt rule with
  | error e => rfl
  | ok card =>
    cases optionOf rt rule with
    | error e => rfl
    | ok o => rfl

theorem forEachRule_frame (rt : Runtime) (items : List Json) (w : World) :
    (forEachRule rt items w).2 = w.withViews (forEachRule rt items w).2.views := by
  induction items generalizing w with
  | nil => rfl
  | cons rule rest ih =>
    unfold forEachRule
    have hr := renderRule_frame rt rule w
    rcases hrr : renderRule rt rule w with ⟨e, w1⟩
    rw [hrr] at hr
    cases e with
    | some e => exact hr
    | none =>
      simp only
      rw [ih w1]
      simp only at hr
      rw [hr]
      simp

theorem callForEach_frame (rt : Runtime) (rules : Json) (w : World) :
    (callForEach rt rules w).2 = w.withViews (callForEach rt rules w).2.views := by
  cases rules with
  | arr items => exact forEachRule_frame rt items w
  | _ => rfl

theorem loadRulesTry_frame (rt : Runtime) (res : FetchResult) (w : World) :
    (loadRulesTry rt res w).2 = w.withViews (loadRulesTry rt res w).2.views := by
  cases res with
  | rejected m => rfl
  | response ok body =>
    cases body with
    | error m => rfl
    | ok rules =>
      have h := callForEach_frame rt rules (clearViews w)
      simp only [loadRulesTry]
      rw [h]
      rfl

/-- The requests sent so far are not changed by the part of `loadRules` that runs
after its fetch. -/
theorem requests_loadRulesResume (rt : Runtime) (res : FetchResult) (w : World) :
    (loadRulesResume rt res w).requests = w.requests := by
  unfold loadRulesResume
  have h := loadRulesTry_frame rt res w
  rcases hr : loadRulesTry rt res w with ⟨e, w1⟩
  rw [hr] at h
  simp only at h
  cases e with
  | none => simp only [loadRulesCatch]; rw [h]; rfl
  | some e => simp only [loadRulesCatch]; rw [h]; rfl

/-- The requests sent by `loadRules`: exactly one GET of the rule list. -/
theorem requests_loadRules (rt : Runtime) (net : Net) (w : World) :
    (loadRules rt net w).requests = w.requests ++ [listRequest] := by
  unfold loadRules
  simp only [fetch, requests_loadRulesResume]

/-- C9. `createRule` sends exactly one POST to `/api/rules/` whose body is the object
with the fields `name`, `description` and `rule_text` of the form; the only
other request it may send is one GET of `/api/rules/` (the refresh), sent after
the POST exactly when the POST response is a success. No second POST is sent. -/
theorem createRule_request_trace (rt : Runtime) (net : Net) (w : World) :
    (createRule rt net w).requests
        = w.requests ++ createRequest w ::
            (if (net (w.requests ++ [createRequest w])).isOk then [listRequest] else [])
      ∧ createRequest w
        = ⟨"POST", "/api/rules/", [("Content-Type", "application/json")],
            some (.obj [("name", .str w.ruleName.value),
                        ("description", .str w.ruleDescription.value),
                        ("rule_text", .str w.ruleText.value)])⟩
      ∧ listRequest = ⟨"GET", "/api/rules/", [], none⟩ := by
  refine ⟨?_, rfl, rfl⟩
  cases hok : (net (w.requests ++ [createRequest w])).isOk with
  | false => simpa using (createRule_not_ok rt net w hok).2
  | true =>
    cases hres : net (w.requests ++ [createRequest w]) with
    | rejected m => simp [hres, FetchResult.isOk] at hok
    | response ok body =>
      cases ok with
      | false => simp [hres, FetchResult.isOk] at hok
      | true =>
        simp [createRule, createRuleTry, fetch, hres, requests_loadRulesResume, resetCreateForm,
          showNotification]

/-! ## deleteRule -/

/-- C6. If the user declines the confirmation, `deleteRule` changes nothing: no
request, no notification, both views as before. If the user accepts, the
requests sent are exactly one DELETE of `/api/rules/` followed by the rule name,
and after it one GET of the rule list when the DELETE response is a success. -/
theorem deleteRule_confirmation_gate (rt : Runtime) (net : Net) (ruleName : String)
    (w : World) :
    (if rt.confirm (confirmMessage ruleName) = true then
        (deleteRule rt net ruleName w).requests
          = w.requests ++ deleteRequest ruleName ::
              (if (net (w.requests ++ [deleteRequest ruleName])).isOk then [listRequest]
               else [])
      else deleteRule rt net ruleName w = w)
      ∧ deleteRequest ruleName = ⟨"DELETE", "/api/rules/" ++ ruleName, [], none⟩
      ∧ listRequest.method = "GET" := by
  refine ⟨?_, rfl, rfl⟩
  cases hc : rt.confirm (confirmMessage ruleName) with
  | false => simp [deleteRule, hc]
  | true =>
    simp only [if_true]
    unfold deleteRule
    simp only [hc, if_true]
    cases hres : net (w.requests ++ [deleteRequest ruleName]) with
    | rejected m => simp [fetch, hres, FetchResult.isOk, showNotification, consoleError]
    | response ok body =>
      cases ok with
      | false => simp [fetch, hres, FetchResult.isOk, showNotification]
      | true => simp [fetch, hres, FetchResult.isOk, requests_loadRules, showNotification]

/-! ## testRule: result mapping -/

/-- C5. When the user data is valid JSON and the response body decodes to an object
whose `result` is the boolean `b`, `testRule` writes to `#testResult` exactly
the card with class `rule-card success-result` and label `MATCH` if `b` is
true, and the card with class `rule-card failure-result` and label `NO MATCH`
if `b` is false; which of the two depends on `b` alone. No notification is
shown. -/
theorem testRule_result_mapping (rt : Runtime) (net : Net) (w : World) (userData : Json)
    (ok : Bool) (props : List (String × Json)) (b : Bool)
    (hparse : rt.jsonParse w.userData = .ok userData)
    (hnet : net (w.requests ++ [testRequest w.ruleSelectValue userData])
      = .response ok (.ok (.obj props)))
    (hres : props.lookup "result" = some (.bool b)) :
    (testRule rt net w).testResult
        = (if b then
            "\n            <div class=\"rule-card success-result\">\n                Rule evaluation result: <strong>MATCH</strong>\n            </div>\n        "
          else
            "\n            <div class=\"rule-card failure-result\">\n                Rule evaluation result: <strong>NO MATCH</strong>\n            </div>\n        ")
      ∧ (testRule rt net w).notifications = w.notifications := by
  have h : testRule rt net w
      = { (fetch net (testRequest w.ruleSelectValue userData) w).2 with
          testResult := testResultHtml (if b then "success-result" else "failure-result")
            (if b then "MATCH" else "NO MATCH") } := by
    simp [testRule, testRuleTry, hparse, fetch, hnet, getProp, hres, toBoolean]
  rw [h]
  cases b
  · exact ⟨rfl, rfl⟩
  · exact ⟨rfl, rfl⟩

/-- Witness of C5: user data `{"age": 20}` tested against rule `R1`, answered with
`{"result": true}`. -/
theorem testRule_result_mapping_witness :
    (testRule exampleRuntime netMatch pageR1).testResult
        = (if true then
            "\n            <div class=\"rule-card success-result\">\n                Rule evaluation result: <strong>MATCH</strong>\n            </div>\n        "
          else
            "\n            <div class=\"rule-card failure-result\">\n                Rule evaluation result: <strong>NO MATCH</strong>\n            </div>\n        ")
      ∧ (testRule exampleRuntime netMatch pageR1).notifications = pageR1.notifications :=
  testRule_result_mapping exampleRuntime netMatch pageR1 (.obj [("age", .num ⟨"20", false⟩)])
    true [("result", .bool true)] true rfl rfl rfl

/-- The same user data answered with `{"result": false}`: the card written is the
`NO MATCH` card. -/
theorem testRule_no_match_example :
    (testRule exampleRuntime netNoMatch pageR1).testResult
      = "\n            <div class=\"rule-card failure-result\">\n                Rule evaluation result: <strong>NO MATCH</strong>\n            </div>\n        " :=
  rfl

/-! ## loadRules: rendering of a list of rule records -/

theorem cardOf_record (rt : Runtime) (j : Json) (r : Rule) (h : IsRuleRecord j r) :
    cardOf rt j = .ok ⟨r.name, r.description, r.rule_text, r.name⟩ := by
  obtain ⟨props, rfl, hn, hd, ht⟩ := h
  simp [cardOf, getProp, hn, hd, ht, toStringJs, jsonToString]

theorem optionOf_record (rt : Runtime) (j : Json) (r : Rule) (h : IsRuleRecord j r) :
    optionOf rt j = .ok ⟨r.name, r.name⟩ := by
  obtain ⟨props, rfl, hn, _, _⟩ := h
  simp [optionOf, getProp, hn, toStringJs, toTextContent, jsonToString]

/-- Rendering a list of rule records never throws and appends one card and one
option per record, in order; an existing selection stays, otherwise the first
option becomes selected. -/
theorem forEachRule_records (rt : Runtime) (items : List Json) (rules : List Rule)
    (h : List.Forall₂ IsRuleRecord items rules) (w : World) :
    forEachRule rt items w
      = (none, w.withViews
          ⟨w.rulesList ++ rules.map (fun r => ⟨r.name, r.description, r.rule_text, r.name⟩),
           w.ruleSelect ++ rules.map (fun r => ⟨r.name, r.name⟩),
           if rules.isEmpty then w.selectedIndex
           else match w.selectedIndex with
             | some i => some i
             | none => some 0⟩) := by
  induction h generalizing w with
  | nil => simp [forEachRule, World.withViews]
  | cons hr _ ih =>
    simp only [forEachRule, renderRule, cardOf_record rt _ _ hr, optionOf_record rt _ _ hr]
    rw [ih]
    cases hs : w.selectedIndex <;>
      simp [appendOption, World.withViews, hs]

/-- After a GET whose body decodes to a list of rule records, `loadRules` leaves in
the rules list one card per record and in the rule select one option per
record, both in the order of the response, and reports nothing. The markup of
a card is the template of lines 19 to 30 with the name, description and rule
text of its record interpolated as they are, without escaping; the option has
the name as value and as text. -/
theorem loadRules_renders_records (rt : Runtime) (net : Net) (w : World)
    (items : List Json) (rules : List Rule)
    (hnet : net (w.requests ++ [listRequest]) = .response true (.ok (.arr items)))
    (hrec : List.Forall₂ IsRuleRecord items rules) :
    (loadRules rt net w).rulesList
        = rules.map (fun r => ⟨r.name, r.description, r.rule_text, r.name⟩)
      ∧ (loadRules rt net w).rulesList.map RuleCard.innerHTML
        = rules.map (fun r =>
            "\n                <div class=\"rule-header\">\n                    <div>\n                        <h3 class=\"rule-title\">"
              ++ r.name
              ++ "</h3>\n                        <p class=\"rule-description\">"
              ++ r.description
              ++ "</p>\n                        <pre class=\"rule-text\">"
              ++ r.rule_text
              ++ "</pre>\n                    </div>\n                    <button onclick=\"deleteRule(\x27"
              ++ r.name
              ++ "\x27)\" class=\"btn btn-danger\">\n                        Delete\n                    </button>\n                </div>\n            ")
      ∧ (loadRules rt net w).ruleSelect = rules.map (fun r => ⟨r.name, r.name⟩)
      ∧ (loadRules rt net w).rulesList.length = rules.length
      ∧ (loadRules rt net w).ruleSelect.length = rules.length
      ∧ (loadRules rt net w).notifications = w.notifications := by
  have h : loadRules rt net w
      = ((clearViews (fetch net listRequest w).2).withViews
          ⟨rules.map (fun r => ⟨r.name, r.description, r.rule_text, r.name⟩),
           rules.map (fun r => ⟨r.name, r.name⟩),
           if rules.isEmpty then none else some 0⟩) := by
    simp only [loadRules, fetch, hnet, loadRulesResume, loadRulesTry, callForEach,
      forEachRule_records rt items rules hrec, loadRulesCatch]
    simp [clearViews, World.withViews]
  rw [h]
  refine ⟨rfl, ?_, rfl, ?_, ?_, rfl⟩
  · simp only [World.withViews, List.map_map]
    rfl
  · simp [World.withViews]
  · simp [World.withViews]

set_option maxRecDepth 20000 in
/-- C7 on the code: the GET is answered with the record of a rule named `O'Neil`.
The option of the rule has the name as value and as text, but the markup
assigned to the card interpolates the name unescaped: the `onclick` attribute
of its button reads `deleteRule('O'Neil')`, in which the string literal ends
after `O`, so the handler is not a call of `deleteRule` with the name of the
rule. -/
theorem loadRules_quoted_name_markup :
    (loadRules exampleRuntime netONeil pageR1).rulesList.map RuleCard.innerHTML
        = ["\n                <div class=\"rule-header\">\n                    <div>\n                        <h3 class=\"rule-title\">O\x27Neil</h3>\n                        <p class=\"rule-description\">d</p>\n                        <pre class=\"rule-text\">age>18</pre>\n                    </div>\n                    <button onclick=\"deleteRule(\x27O\x27Neil\x27)\" class=\"btn btn-danger\">\n                        Delete\n                    </button>\n                </div>\n            "]
      ∧ (loadRules exampleRuntime netONeil pageR1).ruleSelect
        = [⟨"O\x27Neil", "O\x27Neil"⟩]
      ∧ (loadRules exampleRuntime netONeil pageR1).notifications = pageR1.notifications :=
  ⟨rfl, rfl, rfl⟩

/-! ## loadRules: the views after a refresh depend on the response alone -/

theorem views_loadRulesCatch (r : Option String × World) :
    (loadRulesCatch r).views = r.2.views := by
  rcases r with ⟨e, w⟩
  cases e <;> rfl

theorem views_loadRulesResume (rt : Runtime) (res : FetchResult) (w : World) :
    (loadRulesResume rt res w).views = (loadRulesTry rt res w).2.views :=
  views_loadRulesCatch _

theorem renderRule_congr (rt : Runtime) (rule : Json) (w w2 : World)
    (h : w.views = w2.views) :
    (renderRule rt rule w).1 = (renderRule rt rule w2).1
      ∧ (renderRule rt rule w).2.views = (renderRule rt rule w2).2.views := by
  have h1 : w.rulesList = w2.rulesList := congrArg Views.rulesList h
  have h2 : w.ruleSelect = w2.ruleSelect := congrArg Views.ruleSelect h
  have h3 : w.selectedIndex = w2.selectedIndex := congrArg Views.selectedIndex h
  unfold renderRule
  cases cardOf rt rule with
  | error e => exact ⟨rfl, h⟩
  | ok card =>
    cases optionOf rt rule with
    | error e => simp [World.views, h1, h2, h3]
    | ok o => simp [World.views, appendOption, h1, h2, h3]

theorem forEachRule_congr (rt : Runtime) (items : List Json) (w w2 : World)
    (h : w.views = w2.views) :
    (forEachRule rt items w).1 = (forEachRule rt items w2).1
      ∧ (forEachRule rt items w).2.views = (forEachRule rt items w2).2.views := by
  induction items generalizing w w2 with
  | nil => exact ⟨rfl, h⟩
  | cons rule rest ih =>
    have hr := renderRule_congr rt rule w w2 h
    unfold forEachRule
    rcases h1 : renderRule rt rule w with ⟨e1, u1⟩
    rcases h2 : renderRule rt rule w2 with ⟨e2, u2⟩
    rw [h1, h2] at hr
    obtain ⟨he, hv⟩ := hr
    simp only at he hv
    subst he
    cases e1 with
    | some e => exact ⟨rfl, hv⟩
    | none => exact ih u1 u2 hv

/-- When the body of the response decodes, the views after `loadRules` do not
depend on the world in which it ran. -/
theorem loadRulesTry_decoded_congr (rt : Runtime) (ok : Bool) (rules : Json) (w w2 : World) :
    (loadRulesTry rt (.response ok (.ok rules)) w).2.views
      = (loadRulesTry rt (.response ok (.ok rules)) w2).2.views := by
  simp only [loadRulesTry]
  cases rules with
  | arr items => exact (forEachRule_congr rt items (clearViews w) (clearViews w2) rfl).2
  | _ => rfl

/-- Running `loadRules` again against the same response leaves the views as they
were after the first run, whatever the response. -/
theorem loadRulesTry_twice (rt : Runtime) (res : FetchResult) (w w1 : World)
    (h : w1.views = (loadRulesTry rt res w).2.views) :
    (loadRulesTry rt res w1).2.views = (loadRulesTry rt res w).2.views := by
  cases res with
  | rejected m => exact h
  | response ok body =>
    cases body with
    | error m => exact h
    | ok rules => exact loadRulesTry_decoded_congr rt ok rules w1 w

/-- C8. When the GET is answered with the same list both times, running `loadRules`
twice in a row leaves the two views as one run does; and the views after a run
are the same from whatever world the run started, given the same response: they
are determined by the response, and nothing accumulates. -/
theorem loadRules_idempotent (rt : Runtime) (net : Net) (w w2 : World) (ok : Bool)
    (items : List Json)
    (h1 : net (w.requests ++ [listRequest]) = .response ok (.ok (.arr items)))
    (h2 : net (w.requests ++ [listRequest] ++ [listRequest]) = .response ok (.ok (.arr items)))
    (h3 : net (w2.requests ++ [listRequest]) = .response ok (.ok (.arr items))) :
    (loadRules rt net (loadRules rt net w)).views = (loadRules rt net w).views
      ∧ (loadRules rt net w2).views = (loadRules rt net w).views := by
  have e1 : ∀ u : World, net (u.requests ++ [listRequest]) = .response ok (.ok (.arr items)) →
      (loadRules rt net u).views
        = (loadRulesTry rt (.response ok (.ok (.arr items))) u).2.views := by
    intro u hu
    simp only [loadRules, fetch, hu, views_loadRulesResume]
    exact loadRulesTry_decoded_congr rt ok _ _ _
  have hreq : net ((loadRules rt net w).requests ++ [listRequest])
      = .response ok (.ok (.arr items)) := by
    rw [requests_loadRules]; exact h2
  constructor
  · rw [e1 _ hreq, e1 w h1]
    exact loadRulesTry_decoded_congr rt ok _ _ _
  · rw [e1 w2 h3, e1 w h1]
    exact loadRulesTry_decoded_congr rt ok _ _ _

/-- Witness of C8: the list `[R1, R2]` served twice, starting from a page that
showed `R1` and from an empty page. -/
theorem loadRules_idempotent_witness :
    (loadRules exampleRuntime netR1R2 (loadRules exampleRuntime netR1R2 pageR1)).views
        = (loadRules exampleRuntime netR1R2 pageR1).views
      ∧ (loadRules exampleRuntime netR1R2 emptyWorld).views
        = (loadRules exampleRuntime netR1R2 pageR1).views :=
  loadRules_idempotent exampleRuntime netR1R2 pageR1 emptyWorld true
    [ruleR1.toJson, ruleR2.toJson] rfl rfl rfl

/-! ## The two views mirror each other -/

theorem toTextContent_of_toStringJs (rt : Runtime) (v : JsValue) (s : String)
    (h : toStringJs rt v = .ok s) : ∃ t, toTextContent rt v = .ok t := by
  cases v with
  | undefined => exact ⟨"", rfl⟩
  | json j =>
    cases j with
    | null => exact ⟨"", rfl⟩
    | bool b => exact ⟨s, h⟩
    | num n => exact ⟨s, h⟩
    | str x => exact ⟨s, h⟩
    | arr xs => exact ⟨s, h⟩
    | obj ps => exact ⟨s, h⟩

/-- When the card of a response element can be built, so can its option, and the
option carries the name shown by the card and passed to its delete action. -/
theorem optionOf_of_cardOf (rt : Runtime) (rule : Json) (c : RuleCard)
    (h : cardOf rt rule = .ok c) :
    ∃ o, optionOf rt rule = .ok o ∧ c.title = o.value ∧ c.deleteArg = o.value := by
  unfold cardOf at h
  cases hn : getProp rt rule "name" with
  | error e => simp [hn] at h
  | ok n =>
    cases hs : toStringJs rt n with
    | error e => simp [hn, hs] at h
    | ok title =>
      obtain ⟨t, ht⟩ := toTextContent_of_toStringJs rt n title hs
      refine ⟨⟨title, t⟩, by simp [optionOf, hn, hs, ht], ?_⟩
      simp only [hn, hs] at h
      cases hd : getProp rt rule "description" with
      | error e => simp [hd] at h
      | ok d =>
        cases hds : toStringJs rt d with
        | error e => simp [hd, hds] at h
        | ok ds =>
          cases hr : getProp rt rule "rule_text" with
          | error e => simp [hd, hds, hr] at h
          | ok r =>
            cases hrs : toStringJs rt r with
            | error e => simp [hd, hds, hr, hrs] at h
            | ok rs =>
              simp only [hd, hds, hr, hrs, Except.ok.injEq] at h
              subst h
              exact ⟨rfl, rfl⟩

theorem renderRule_mirrored (rt : Runtime) (rule : Json) (w : World)
    (h : Mirrored w.views) : Mirrored (renderRule rt rule w).2.views := by
  unfold renderRule
  cases hc : cardOf rt rule with
  | error e => exact h
  | ok card =>
    obtain ⟨o, ho, h1, h2⟩ := optionOf_of_cardOf rt rule card hc
    obtain ⟨ht, hd⟩ := h
    simp only [World.views] at ht hd
    simp [ho, Mirrored, World.views, appendOption, ht, hd, h1, h2]

theorem forEachRule_mirrored (rt : Runtime) (items : List Json) (w : World)
    (h : Mirrored w.views) : Mirrored (forEachRule rt items w).2.views := by
  induction items generalizing w with
  | nil => exact h
  | cons rule rest ih =>
    have hr := renderRule_mirrored rt rule w h
    unfold forEachRule
    rcases h1 : renderRule rt rule w with ⟨e, u⟩
    rw [h1] at hr
    cases e with
    | some e => exact hr
    | none => exact ih u hr

theorem loadRulesResume_mirrored (rt : Runtime) (res : FetchResult) (w : World)
    (h : Mirrored w.views) : Mirrored (loadRulesResume rt res w).views := by
  rw [views_loadRulesResume]
  cases res with
  | rejected m => exact h
  | response ok body =>
    cases body with
    | error m => exact h
    | ok rules =>
      simp only [loadRulesTry]
      cases rules with
      | arr items => exact forEachRule_mirrored rt items (clearViews w) ⟨rfl, rfl⟩
      | _ => exact ⟨rfl, rfl⟩

theorem loadRules_mirrored (rt : Runtime) (net : Net) (w : World)
    (h : Mirrored w.views) : Mirrored (loadRules rt net w).views :=
  loadRulesResume_mirrored rt _ _ h

theorem createRule_mirrored (rt : Runtime) (net : Net) (w : World)
    (h : Mirrored w.views) : Mirrored (createRule rt net w).views := by
  cases hok : (net (w.requests ++ [createRequest w])).isOk with
  | false => rw [(createRule_not_ok rt net w hok).1]; exact h
  | true =>
    cases hres : net (w.requests ++ [createRequest w]) with
    | rejected m => simp [hres, FetchResult.isOk] at hok
    | response ok body =>
      cases ok with
      | false => simp [hres, FetchResult.isOk] at hok
      | true =>
        simp only [createRule, createRuleTry, fetch, hres]
        exact loadRulesResume_mirrored rt _ _ h

theorem deleteRule_mirrored (rt : Runtime) (net : Net) (ruleName : String) (w : World)
    (h : Mirrored w.views) : Mirrored (deleteRule rt net ruleName w).views := by
  unfold deleteRule
  cases rt.confirm (confirmMessage ruleName) with
  | false => exact h
  | true =>
    simp only [if_true]
    cases hres : net (w.requests ++ [deleteRequest ruleName]) with
    | rejected m => simpa [fetch, hres] using h
    | response ok body =>
      cases ok with
      | false => simpa [fetch, hres] using h
      | true =>
        simp only [fetch, hres]
        exact loadRules_mirrored rt net _ h

theorem Mirrored.length_eq (v : Views) (h : Mirrored v) :
    v.rulesList.length = v.ruleSelect.length := by
  have := congrArg List.length h.1
  simpa using this

/-- C10. If the rules list and the rule select hold entries for the same sequence of
rule names before the call, they do so again after `loadRules`, after
`createRule` and after `deleteRule`, whatever the network answers (also when a
malformed response makes rendering fail part-way); in particular both views
then have the same number of entries. -/
theorem mirror_invariant (rt : Runtime) (net : Net) (ruleName : String) (w : World)
    (h : Mirrored w.views) :
    (Mirrored (loadRules rt net w).views
        ∧ (loadRules rt net w).rulesList.length = (loadRules rt net w).ruleSelect.length)
      ∧ (Mirrored (createRule rt net w).views
        ∧ (createRule rt net w).rulesList.length = (createRule rt net w).ruleSelect.length)
      ∧ (Mirrored (deleteRule rt net ruleName w).views
        ∧ (deleteRule rt net ruleName w).rulesList.length
          = (deleteRule rt net ruleName w).ruleSelect.length) :=
  ⟨⟨loadRules_mirrored rt net w h, Mirrored.length_eq _ (loadRules_mirrored rt net w h)⟩,
   ⟨createRule_mirrored rt net w h, Mirrored.length_eq _ (createRule_mirrored rt net w h)⟩,
   ⟨deleteRule_mirrored rt net ruleName w h,
    Mirrored.length_eq _ (deleteRule_mirrored rt net ruleName w h)⟩⟩

/-- Witness of C10: the page showing `R1` in both views, on a network that serves
the malformed list `[R1, null]`. -/
theorem mirror_invariant_witness :
    (Mirrored (loadRules exampleRuntime netR1Null pageR1).views
        ∧ (loadRules exampleRuntime netR1Null pageR1).rulesList.length
          = (loadRules exampleRuntime netR1Null pageR1).ruleSelect.length)
      ∧ (Mirrored (createRule exampleRuntime netR1Null pageR1).views
        ∧ (createRule exampleRuntime netR1Null pageR1).rulesList.length
          = (createRule exampleRuntime netR1Null pageR1).ruleSelect.length)
      ∧ (Mirrored (deleteRule exampleRuntime netR1Null "R1" pageR1).views
        ∧ (deleteRule exampleRuntime netR1Null "R1" pageR1).rulesList.length
          = (deleteRule exampleRuntime netR1Null "R1" pageR1).ruleSelect.length) :=
  mirror_invariant exampleRuntime netR1Null "R1" pageR1 ⟨rfl, rfl⟩

/-! ## loadRules: failures -/

/-- C3, as stated, fails: the server answers the GET with an error payload, which
decodes to an object and not to a list. `loadRules` ends in its error branch
and reports `Error loading rules`, but both views have been emptied: the
rule `R1` shown before is gone. -/
theorem loadRules_non_list_clears_views :
    (loadRules exampleRuntime netError pageR1).notifications
        = pageR1.notifications ++ [⟨"Error loading rules", "error"⟩]
      ∧ pageR1.views = ⟨[⟨"R1", "d", "age>18", "R1"⟩], [⟨"R1", "R1"⟩], some 0⟩
      ∧ (loadRules exampleRuntime netError pageR1).views = ⟨[], [], none⟩
      ∧ (loadRules exampleRuntime netError pageR1).views ≠ pageR1.views := by
  refine ⟨rfl, rfl, rfl, ?_⟩
  decide

/-- C3, amended. When `loadRules` fails because its fetch is rejected or because the
body of the response cannot be decoded, it reports `Error loading rules` and
both views are exactly as before the call. -/
theorem loadRules_failure_retains_views (rt : Runtime) (net : Net) (w : World)
    (h : (net (w.requests ++ [listRequest])).decoded = none) :
    (loadRules rt net w).views = w.views
      ∧ (loadRules rt net w).notifications
        = w.notifications ++ [⟨"Error loading rules", "error"⟩] := by
  unfold loadRules
  cases hres : net (w.requests ++ [listRequest]) with
  | rejected m =>
    simp [fetch, hres, loadRulesResume, loadRulesTry, loadRulesCatch, showNotification,
      consoleError, World.views]
  | response ok body =>
    cases body with
    | ok rules => simp [hres, FetchResult.decoded] at h
    | error m =>
      simp [fetch, hres, loadRulesResume, loadRulesTry, loadRulesCatch, showNotification,
        consoleError, World.views]

/-- Witness of the amended C3: the fetch is rejected. -/
theorem loadRules_failure_retains_views_witness :
    (loadRules exampleRuntime netOffline pageR1).views = pageR1.views
      ∧ (loadRules exampleRuntime netOffline pageR1).notifications
        = pageR1.notifications ++ [⟨"Error loading rules", "error"⟩] :=
  loadRules_failure_retains_views exampleRuntime netOffline pageR1 rfl

/-- When the body decodes to a value that is not an array, `loadRules` reports
`Error loading rules` after both views have been emptied. -/
theorem loadRules_non_array (rt : Runtime) (net : Net) (w : World) (ok : Bool) (rules : Json)
    (hnet : net (w.requests ++ [listRequest]) = .response ok (.ok rules))
    (hrules : ∀ items, rules ≠ .arr items) :
    (loadRules rt net w).views = ⟨[], [], none⟩
      ∧ (loadRules rt net w).notifications
        = w.notifications ++ [⟨"Error loading rules", "error"⟩] := by
  unfold loadRules
  cases rules with
  | arr items => exact absurd rfl (hrules items)
  | _ =>
    simp [fetch, hnet, loadRulesResume, loadRulesTry, callForEach, loadRulesCatch,
      showNotification, consoleError, World.views, clearViews]

/-! ## Failures and notifications -/

/-- C4 on the code: the POST of `testRule` is answered with a non-success status
and a decodable error payload. No notification is shown, and `#testResult`
displays `NO MATCH` as if the rule had been evaluated. -/
theorem testRule_error_status_is_silent :
    (testRule exampleRuntime netError pageR1).notifications = pageR1.notifications
      ∧ errorCount (testRule exampleRuntime netError pageR1).notifications = 0
      ∧ (testRule exampleRuntime netError pageR1).testResult
        = "\n            <div class=\"rule-card failure-result\">\n                Rule evaluation result: <strong>NO MATCH</strong>\n            </div>\n        " := by
  refine ⟨rfl, rfl, rfl⟩

/-- A failed POST of `createRule` is always reported by one notification of kind
`error`. -/
theorem createRule_failure_notifies (rt : Runtime) (net : Net) (w : World)
    (h : (net (w.requests ++ [createRequest w])).isOk = false) :
    ∃ m, (createRule rt net w).notifications = w.notifications ++ [⟨m, "error"⟩] := by
  unfold createRule createRuleTry
  cases hres : net (w.requests ++ [createRequest w]) with
  | rejected m => exact ⟨"Error creating rule", by simp [fetch, hres, showNotification, consoleError]⟩
  | response ok body =>
    cases ok with
    | true => simp [hres, FetchResult.isOk] at h
    | false =>
      cases body with
      | error m => exact ⟨"Error creating rule", by simp [fetch, hres, showNotification, consoleError]⟩
      | ok err =>
        cases h1 : getProp rt err "detail" with
        | error m => exact ⟨"Error creating rule", by simp [fetch, hres, h1, showNotification, consoleError]⟩
        | ok d =>
          cases h2 : toStringJs rt d with
          | error m => exact ⟨"Error creating rule", by simp [fetch, hres, h1, h2, showNotification, consoleError]⟩
          | ok detail => exact ⟨"Error: " ++ detail, by simp [fetch, hres, h1, h2, showNotification]⟩

/-- A confirmed `deleteRule` whose DELETE fails is reported by one notification of
kind `error`. -/
theorem deleteRule_failure_notifies (rt : Runtime) (net : Net) (ruleName : String) (w : World)
    (hc : rt.confirm (confirmMessage ruleName) = true)
    (h : (net (w.requests ++ [deleteRequest ruleName])).isOk = false) :
    (deleteRule rt net ruleName w).notifications
      = w.notifications ++ [⟨"Error deleting rule", "error"⟩] := by
  unfold deleteRule
  simp only [hc, if_true]
  cases hres : net (w.requests ++ [deleteRequest ruleName]) with
  | rejected m => simp [fetch, hres, showNotification, consoleError]
  | response ok body =>
    cases ok with
    | true => simp [hres, FetchResult.isOk] at h
    | false => simp [fetch, hres, showNotification]

/-- A `testRule` whose fetch is rejected or whose response body cannot be decoded is
reported by one notification of kind `error`. -/
theorem testRule_failure_notifies (rt : Runtime) (net : Net) (w : World) (userData : Json)
    (hparse : rt.jsonParse w.userData = .ok userData)
    (h : (net (w.requests ++ [testRequest w.ruleSelectValue userData])).decoded = none) :
    ∃ m, (testRule rt net w).notifications = w.notifications ++ [⟨m, "error"⟩] := by
  unfold testRule testRuleTry
  cases hres : net (w.requests ++ [testRequest w.ruleSelectValue userData]) with
  | rejected m => exact ⟨"Error testing rule: " ++ m, by simp [hparse, fetch, hres, showNotification, consoleError]⟩
  | response ok body =>
    cases body with
    | ok v => simp [hres, FetchResult.decoded] at h
    | error m => exact ⟨"Error testing rule: " ++ m, by simp [hparse, fetch, hres, showNotification, consoleError]⟩

end RuleEngine
